import Mathlib

/-!
Verification development for the response-model coercion and retry engine of
the `jxnl/openai_function_call` repository (the `instructor` package).

The definitions below are a shallow embedding of the Python source:

* `src/instructor/patch.py` — `dump_message`, `retry_sync`, `retry_async`
  and the legacy `handle_response_model`;
* `src/instructor/process_response.py` — `handle_response_model`
  (mode strategy table);
* `src/instructor/client_vertexai.py` — `_create_gemini_json_schema`.

Machine integers are Python's unbounded ints, embedded as `Nat` (token counts
are non-negative).  Python exceptions are embedded as explicit `Except` /
outcome constructors.  The one function imported from a module absent from the
repository snapshot (`instructor.utils.merge_consecutive_messages`) is
modelled from the spec and marked as such in its doc comment.
-/

namespace Instructor

/-- Message roles appearing in the conversation dictionaries. -/
inductive Role
  | system
  | user
  | assistant
  | tool
deriving DecidableEq, Repr

/-- Embeds `ChatCompletionMessageToolCall`: fields `id`, `function.arguments`,
`function.name` (the `type` field is the constant `"function"`). -/
structure ToolCall where
  id : String
  arguments : String
  fname : String
deriving DecidableEq, Repr

/-- Embeds the legacy `function_call` payload: `arguments` and `name`. -/
structure FunctionCallPayload where
  arguments : String
  fname : String
deriving DecidableEq, Repr

/-- Embeds a conversation message dictionary (`ChatCompletionMessageParam`):
keys `role`, `content`, and the optional keys `tool_call_id`, `name` and
`tool_calls` used by the corrective turns (`tool_calls` holds the serialized
payload that `dump_message` stores under that key). -/
structure ChatMessage where
  role : Role
  content : String
  tool_call_id : Option String := none
  participant : Option String := none
  tool_calls_payload : Option String := none
deriving DecidableEq, Repr

/-- Embeds the provider's `ChatCompletionMessage` (`choices[0].message`):
`content` may be `None`, and `tool_calls` / `function_call` are optional. -/
structure CompletionMessage where
  role : Role
  content : Option String
  tool_calls : Option (List ToolCall) := none
  function_call : Option FunctionCallPayload := none
deriving DecidableEq, Repr

/-- Embeds `CompletionUsage`.  The fields are required ints in the OpenAI
type; the `x or 0` guards in the accumulation code are the identity on them
(`0 or 0 == 0`). -/
structure CompletionUsage where
  completion_tokens : Nat
  prompt_tokens : Nat
  total_tokens : Nat
deriving DecidableEq, Repr

/-- Embeds the slice of a `ChatCompletion` the retry loop inspects:
`choices[0].message` and the optional `usage`. -/
structure ChatCompletionResp where
  message : CompletionMessage
  usage : Option CompletionUsage
deriving DecidableEq, Repr

/-- The mode enum (`instructor.function_calls.Mode`). -/
inductive Mode
  | FUNCTIONS
  | TOOLS
  | MISTRAL_TOOLS
  | JSON
  | JSON_SCHEMA
  | MD_JSON
  | PARALLEL_TOOLS
  | ANTHROPIC_TOOLS
  | ANTHROPIC_JSON
  | GEMINI_JSON
  | VERTEXAI_TOOLS
  | VERTEXAI_JSON
  | COHERE_TOOLS
deriving DecidableEq, Repr

/-- Renders a JSON string literal.  The payloads in scope contain no
characters that `json.dumps` would escape, so escaping is omitted. -/
def jsonStr (s : String) : String := "\"" ++ s ++ "\""

/-- Embeds `json.dumps` of one element of `model_dump()["tool_calls"]`
(field order `id`, `function` (`arguments`, `name`), `type`; default
separators). -/
def dumpsToolCall (tc : ToolCall) : String :=
  "\x7b\"id\": " ++ jsonStr tc.id ++ ", \"function\": \x7b\"arguments\": "
    ++ jsonStr tc.arguments ++ ", \"name\": " ++ jsonStr tc.fname
    ++ "\x7d, \"type\": \"function\"\x7d"

/-- Embeds `json.dumps(message.model_dump()["tool_calls"])`. -/
def dumpsToolCalls (tcs : List ToolCall) : String :=
  "[" ++ String.intercalate ", " (tcs.map dumpsToolCall) ++ "]"

/-- Embeds `json.dumps(message.model_dump()["function_call"])`
(field order `arguments`, `name`). -/
def dumpsFunctionCall (fc : FunctionCallPayload) : String :=
  "\x7b\"arguments\": " ++ jsonStr fc.arguments ++ ", \"name\": "
    ++ jsonStr fc.fname ++ "\x7d"

/-- Embeds `dump_message` (`patch.py`): the returned dict has
`content = message.content or ""`; when `tool_calls` is present it is also
stored under the `tool_calls` key and its JSON serialization is concatenated
onto `content`; when `function_call` is present its JSON serialization is
concatenated onto `content` as well. -/
def dump_message (m : CompletionMessage) : ChatMessage :=
  { role := m.role
    content :=
      (m.content.getD ""
          ++ (match m.tool_calls with
              | some tcs => dumpsToolCalls tcs
              | none => ""))
        ++ (match m.function_call with
            | some fc => dumpsFunctionCall fc
            | none => "")
    tool_call_id := none
    participant := none
    tool_calls_payload := m.tool_calls.map dumpsToolCalls }

/-- The retriable exception class of the retry loop:
`pydantic.ValidationError` or `json.JSONDecodeError` (its `str(e)` text). -/
inductive RetriableError
  | validationError (msg : String)
  | jsonDecodeError (msg : String)
deriving DecidableEq, Repr

/-- Embeds `str(e)` for a retriable exception. -/
def RetriableError.text : RetriableError → String
  | .validationError m => m
  | .jsonDecodeError m => m

/-- Environment script for one transport invocation: either the transport (or
response processing) raises an exception that is not a `ValidationError` /
`JSONDecodeError`, or it returns a response whose parse step either succeeds
(`parseError = none`) or raises a retriable exception. -/
inductive AttemptOutcome
  | raises (msg : String)
  | returns (resp : ChatCompletionResp) (parseError : Option RetriableError)
deriving DecidableEq, Repr

/-- How a retry-loop run ends.  `raised e` is the `raise e` after the retry
budget is exhausted (the bare retriable exception); `transportError` is an
uncaught non-retriable exception propagating; `toolCallMissing` is the
uncaught `TypeError`/`IndexError` raised while building the TOOLS corrective
turn from a response without tool calls; `loopFellThrough` is the `while`
condition turning false (Python would return `None`); `transcriptEnded` is a
model artifact (the environment script ran out of attempts). -/
inductive RetryOutcome
  | success (resp : ChatCompletionResp)
  | raised (e : RetriableError)
  | transportError (msg : String)
  | toolCallMissing
  | loopFellThrough
  | transcriptEnded
deriving DecidableEq, Repr

/-- The raw response exposed by a retry outcome.  A successful call hands the
response onward (attached as `_raw_response`); the exceptions the loop raises
(`raise e` of a `ValidationError` / `JSONDecodeError`, or a propagating
transport exception) carry no response object. -/
def RetryOutcome.lastCompletion : RetryOutcome → Option ChatCompletionResp
  | .success r => some r
  | _ => none

/-- Result of a retry-loop run: the outcome, the final state of
`kwargs["messages"]`, the final `total_usage` accumulator, and how many
transport invocations were made. -/
structure RetryResult where
  outcome : RetryOutcome
  messages : List ChatMessage
  total_usage : CompletionUsage
  invocations : Nat
deriving DecidableEq, Repr

/-- One accumulation step of the loop: `total_usage.completion_tokens +=
response.usage.completion_tokens or 0` (and likewise for the other two
fields), executed only when the response carries a usage. -/
def accUsage (total : CompletionUsage) : Option CompletionUsage → CompletionUsage
  | some u =>
    { completion_tokens := total.completion_tokens + u.completion_tokens
      prompt_tokens := total.prompt_tokens + u.prompt_tokens
      total_tokens := total.total_tokens + u.total_tokens }
  | none => total

/-- The tool-result corrective turn of TOOLS mode, built from
`response.choices[0].message.tool_calls[0]`.  When the failing response has no
tool call the Python subscript raises an uncaught `TypeError`/`IndexError`,
embedded as `none`. -/
def toolFailureTurn (contentText : String) (resp : ChatCompletionResp) :
    Option ChatMessage :=
  match resp.message.tool_calls with
  | some (tc :: _) =>
    some { role := Role.tool
           content := contentText
           tool_call_id := some tc.id
           participant := some tc.fname
           tool_calls_payload := none }
  | _ => none

/-- The corrective user turn quoting the exception (`retry_sync` text). -/
def syncUserTurn (e : RetriableError) : ChatMessage :=
  { role := Role.user
    content := "Recall the function correctly, fix the errors and exceptions found\n"
      ++ e.text }

/-- The corrective user turn quoting the exception (`retry_async` text). -/
def asyncUserTurn (e : RetriableError) : ChatMessage :=
  { role := Role.user
    content := "Recall the function correctly, fix the errors, exceptions found\n"
      ++ e.text }

/-- The extra assistant turn MD_JSON mode appends after a failure. -/
def mdJsonRetryTurn : ChatMessage :=
  { role := Role.assistant, content := "```json" }

/-- The block of corrective turns one retriable failure appends, in source
order: the TOOLS failure marker (TOOLS mode only), then the dumped failing
assistant message, then the corrective user message, then the MD_JSON fenced
opener (MD_JSON mode only).  `none` embeds the uncaught exception raised while
building the TOOLS marker from a response without tool calls. -/
def correctiveBlock (toolContent : RetriableError → String)
    (userTurn : RetriableError → ChatMessage) (mode : Mode)
    (resp : ChatCompletionResp) (e : RetriableError) :
    Option (List ChatMessage) :=
  if mode = Mode.TOOLS then
    match toolFailureTurn (toolContent e) resp with
    | some t =>
      some (t :: ([dump_message resp.message, userTurn e]
        ++ (if mode = Mode.MD_JSON then [mdJsonRetryTurn] else [])))
    | none => none
  else
    some ([dump_message resp.message, userTurn e]
      ++ (if mode = Mode.MD_JSON then [mdJsonRetryTurn] else []))

/-- The retry loop shared by `retry_sync` and `retry_async` (`patch.py`).
`fuel = max_retries + 1 - retries` counts the iterations the `while retries <=
max_retries` guard still permits; after a failure `retries += 1`, and
`retries > max_retries` (that is, `fuel` reaching zero) re-raises the
exception.  A response's usage, when present, is accumulated into
`total_usage` and the response's own usage field is replaced with the running
total before the response is processed. -/
def retryStep (toolContent : RetriableError → String)
    (userTurn : RetriableError → ChatMessage) (mode : Mode) :
    Nat → List AttemptOutcome → List ChatMessage → CompletionUsage → Nat →
    RetryResult
  | 0, _, msgs, total, inv => ⟨.loopFellThrough, msgs, total, inv⟩
  | _ + 1, [], msgs, total, inv => ⟨.transcriptEnded, msgs, total, inv⟩
  | fuel + 1, att :: rest, msgs, total, inv =>
    match att with
    | .raises m => ⟨.transportError m, msgs, total, inv + 1⟩
    | .returns resp parseError =>
      let total2 := accUsage total resp.usage
      let resp2 := match resp.usage with
        | some _ => { resp with usage := some total2 }
        | none => resp
      match parseError with
      | none => ⟨.success resp2, msgs, total2, inv + 1⟩
      | some e =>
        match correctiveBlock toolContent userTurn mode resp2 e with
        | none => ⟨.toolCallMissing, msgs, total2, inv + 1⟩
        | some block =>
          let msgs2 := msgs ++ block
          if fuel = 0 then ⟨.raised e, msgs2, total2, inv + 1⟩
          else retryStep toolContent userTurn mode fuel rest msgs2 total2
            (inv + 1)

/-- Runs the retry loop from its initial state: `retries = 0`,
`total_usage = CompletionUsage(0, 0, 0)`. -/
def retryCore (toolContent : RetriableError → String)
    (userTurn : RetriableError → ChatMessage) (mode : Mode)
    (max_retries : Nat) (transcript : List AttemptOutcome)
    (messages : List ChatMessage) : RetryResult :=
  retryStep toolContent userTurn mode (max_retries + 1) transcript messages
    ⟨0, 0, 0⟩ 0

/-- Embeds `retry_sync` (`patch.py`): the TOOLS failure marker's content
quotes the exception. -/
def retry_sync (mode : Mode) (max_retries : Nat)
    (transcript : List AttemptOutcome) (messages : List ChatMessage) :
    RetryResult :=
  retryCore
    (fun e =>
      "Recall the function correctly, fix the errors and exceptions found\n"
        ++ e.text)
    syncUserTurn mode max_retries transcript messages

/-- Embeds `retry_async` (`patch.py`): the TOOLS failure marker's content is
the constant `"failure"`. -/
def retry_async (mode : Mode) (max_retries : Nat)
    (transcript : List AttemptOutcome) (messages : List ChatMessage) :
    RetryResult :=
  retryCore (fun _ => "failure") asyncUserTurn mode max_retries transcript
    messages

/-! ### Mode strategy table: message handling (`handle_response_model`)

`process_response.py` builds `new_kwargs = kwargs.copy()` — a shallow copy,
so `new_kwargs["messages"]` is the very list object the caller passed.  To
settle the aliasing claims we embed the Python heap explicitly: a `Store` maps
list references (indices) to message lists; in-place mutation writes through a
reference, rebinding allocates a fresh reference. -/

/-- The heap of message lists.  A reference is an index into the store. -/
abbrev Store := List (List ChatMessage)

/-- Dereferences a message-list reference. -/
def readList (s : Store) (r : Nat) : List ChatMessage := s.getD r []

/-- In-place mutation of the list behind a reference (Python `list.append`,
`list.insert`, or mutating an element dict). -/
def writeList (s : Store) (r : Nat) (l : List ChatMessage) : Store := s.set r l

/-- Allocates a fresh list object (Python building a new list). -/
def allocList (s : Store) (l : List ChatMessage) : Store × Nat :=
  (s ++ [l], s.length)

/-- Modelled from the spec: `merge_consecutive_messages` is imported from
`instructor.utils`, whose source file is missing from the repository snapshot.
Per the spec it merges runs of consecutive same-role messages into a single
message (providers requiring strict role alternation), joining the contents
with a blank line, and is idempotent. -/
def merge_consecutive_messages : List ChatMessage → List ChatMessage
  | [] => []
  | m :: rest =>
    match merge_consecutive_messages rest with
    | [] => [m]
    | m2 :: rest2 =>
      if m.role = m2.role then
        { m with content := m.content ++ "\n\n" ++ m2.content } :: rest2
      else
        m :: m2 :: rest2

/-- The system message inserted by the JSON-family placement rule; its content
is the rendered-schema instruction text (abstracted as `schemaMsg`, the
`message` string built from `response_model.model_json_schema()`). -/
def jsonSystemMessage (schemaMsg : String) : ChatMessage :=
  { role := Role.system, content := schemaMsg }

/-- The user turn MD_JSON mode appends before merging
(`process_response.py`). -/
def mdJsonUserRequest : ChatMessage :=
  { role := Role.user
    content := "Return the correct JSON response within a ```json codeblock. not the JSON_SCHEMA" }

/-- The JSON-family placement rule (`process_response.py`): if the first
message is not a system message, insert a new system message carrying the
schema instruction at position 0; else append the instruction to the first
message's content.  `none` embeds the `IndexError` on an empty message list. -/
def jsonPlacement (schemaMsg : String) :
    List ChatMessage → Option (List ChatMessage)
  | [] => none
  | first :: rest =>
    if first.role ≠ Role.system then
      some (jsonSystemMessage schemaMsg :: first :: rest)
    else
      some ({ first with content := first.content ++ "\n\n" ++ schemaMsg }
        :: rest)

/-- Store-level embedding of the JSON / JSON_SCHEMA / MD_JSON branch of
`handle_response_model` (`process_response.py`).  For MD_JSON the user
request is appended in place (visible through the caller's alias), then
`new_kwargs["messages"]` is rebound to the fresh list built by
`merge_consecutive_messages`; the placement rule then mutates whichever list
`new_kwargs["messages"]` refers to. -/
def handleJsonModeStore (isMD : Bool) (schemaMsg : String) (store : Store)
    (msgsRef : Nat) : Option (Store × Nat) :=
  let st1 :=
    if isMD then
      let appended := readList store msgsRef ++ [mdJsonUserRequest]
      let store2 := writeList store msgsRef appended
      allocList store2 (merge_consecutive_messages appended)
    else
      (store, msgsRef)
  match jsonPlacement schemaMsg (readList st1.1 st1.2) with
  | none => none
  | some out => some (writeList st1.1 st1.2 out, st1.2)

/-- Store-level embedding of the message-list handling of
`handle_response_model` (`process_response.py`) for the OpenAI-protocol
modes.  `new_kwargs = kwargs.copy()` is a shallow copy, so the handler starts
from the caller's own messages reference.  The FUNCTIONS / TOOLS /
MISTRAL_TOOLS branches only set top-level keys (`functions`, `function_call`,
`tools`, `tool_choice`) and never touch the message list.  The remaining
branches (Anthropic, Gemini, Vertex, Cohere, Parallel) are embedded
separately below and are not routed through the store model (`none` here). -/
def handleMessagesStore (mode : Mode) (schemaMsg : String) (store : Store)
    (msgsRef : Nat) : Option (Store × Nat) :=
  match mode with
  | .FUNCTIONS | .TOOLS | .MISTRAL_TOOLS => some (store, msgsRef)
  | .JSON | .JSON_SCHEMA => handleJsonModeStore false schemaMsg store msgsRef
  | .MD_JSON => handleJsonModeStore true schemaMsg store msgsRef
  | _ => none

/-! ### Anthropic modes (`handle_response_model`, `process_response.py`) -/

/-- `[m["content"] for m in messages if m["role"] == "system"]`. -/
def systemContents (ms : List ChatMessage) : List String :=
  (ms.filter (fun m => m.role = Role.system)).map (fun m => m.content)

/-- Result of an Anthropic-mode handler: the transformed message list and the
top-level `system` entry of `new_kwargs` (`none` when the key is absent). -/
structure AnthropicResult where
  messages : List ChatMessage
  systemText : Option String
deriving DecidableEq, Repr

/-- True when the character is a space or a tab (the whitespace class of
`textwrap`'s margin regexes). -/
def isIndentChar (c : Char) : Bool := c = ' ' ∨ c = '\t'

/-- `textwrap.dedent` step 1: lines consisting solely of whitespace are
normalized to empty lines. -/
def blankWhitespaceOnly (line : String) : String :=
  if line ≠ "" ∧ line.toList.all isIndentChar then "" else line

/-- Longest common prefix of two character lists (the margin-narrowing of
`textwrap.dedent`). -/
def commonIndent : List Char → List Char → List Char
  | x :: xs, y :: ys => if x = y then x :: commonIndent xs ys else []
  | _, _ => []

/-- Embeds `textwrap.dedent`: whitespace-only lines are blanked, the margin is
the longest common leading whitespace of the non-empty lines, and the margin
is stripped from every line that starts with it. -/
def dedent (text : String) : String :=
  let lines := (text.splitOn "\n").map blankWhitespaceOnly
  let indents := (lines.filter (fun l => l ≠ "")).map
    (fun l => l.toList.takeWhile isIndentChar)
  let margin : List Char :=
    match indents with
    | [] => []
    | i :: is => is.foldl commonIndent i
  let strip := fun (l : String) =>
    if l.toList.take margin.length = margin then
      String.mk (l.toList.drop margin.length)
    else l
  String.intercalate "\n" (lines.map strip)

/-- Embeds the ANTHROPIC_TOOLS branch: system-role contents are collected; if
the caller passed both a top-level `system` and system-role messages a
`ValueError` is raised immediately; otherwise, when no top-level `system` was
passed, `new_kwargs["system"]` becomes the blank-line-joined system contents;
finally the system-role messages are removed from the message list. -/
def handleAnthropicTools (systemParam : Option String)
    (ms : List ChatMessage) : Except String AnthropicResult :=
  let sys := systemContents ms
  if systemParam.isSome ∧ sys ≠ [] then
    .error "Only a single system message is supported - either set it as a message in the messages array or use the system parameter"
  else
    let systemOut := match systemParam with
      | some s => some s
      | none => some (String.intercalate "\n\n" sys)
    .ok { messages := ms.filter (fun m => m.role ≠ Role.system)
          systemText := systemOut }

/-- The literal f-string block ANTHROPIC_JSON appends to the system text
(`schemaText` stands for `json.dumps(response_model.model_json_schema(),
indent=2)`; the source line indentation is 16 spaces, and the interpolated
dump keeps its own line structure). -/
def anthropicJsonBlock (schemaText : String) : String :=
  "\n                You must only responsd in JSON format that adheres to the following schema:\n\n                <JSON_SCHEMA>\n                "
    ++ schemaText
    ++ "\n                </JSON_SCHEMA>\n                "

/-- Embeds the ANTHROPIC_JSON branch: system-role contents are collected; both
a top-level `system` and system-role messages raise a `ValueError`
immediately; with no top-level `system`, the system string becomes
`dedent("" + "\n\n" + "\n\n".join(system_messages) + schema_block)`; with a
top-level `system` (and no system-role messages) the dedented schema block is
appended to it.  The system-role messages are removed from the message list
and consecutive same-role messages are merged. -/
def handleAnthropicJson (systemParam : Option String) (schemaText : String)
    (ms : List ChatMessage) : Except String AnthropicResult :=
  let sys := systemContents ms
  if systemParam.isSome ∧ sys ≠ [] then
    .error "Only a single System message is supported - either set it using the system parameter or in the list of messages"
  else
    let systemOut := match systemParam with
      | none =>
        dedent ("" ++ "\n\n" ++ String.intercalate "\n\n" sys
          ++ anthropicJsonBlock schemaText)
      | some s => s ++ dedent (anthropicJsonBlock schemaText)
    .ok { messages :=
            merge_consecutive_messages
              (ms.filter (fun m => m.role ≠ Role.system))
          systemText := some systemOut }

/-! ### GEMINI_JSON safety settings (`handle_response_model`,
`process_response.py`) -/

/-- The harm categories relevant to the default safety settings (plus one
category outside the default set). -/
inductive HarmCategory
  | HARM_CATEGORY_HATE_SPEECH
  | HARM_CATEGORY_HARASSMENT
  | HARM_CATEGORY_DANGEROUS_CONTENT
  | HARM_CATEGORY_SEXUALLY_EXPLICIT
deriving DecidableEq, Repr

/-- Harm block thresholds. -/
inductive HarmBlockThreshold
  | BLOCK_NONE
  | BLOCK_ONLY_HIGH
  | BLOCK_LOW_AND_ABOVE
  | BLOCK_MEDIUM_AND_ABOVE
deriving DecidableEq, Repr

/-- A Python dict from harm categories to thresholds, as an association list
with distinct keys (dicts cannot hold duplicate keys). -/
abbrev SafetySettings := List (HarmCategory × HarmBlockThreshold)

/-- First-match lookup in a safety-settings dict. -/
def slookup (k : HarmCategory) : SafetySettings → Option HarmBlockThreshold
  | [] => none
  | (k2, v) :: rest => if k2 = k then some v else slookup k rest

/-- Embeds Python's dict union `a | b` (PEP 584): the keys keep `a`'s order
followed by `b`-only keys, and on a common key the value of the rightmost
operand `b` wins. -/
def pyDictOr (a b : SafetySettings) : SafetySettings :=
  a.map (fun kv => (kv.1, (slookup kv.1 b).getD kv.2))
    ++ b.filter (fun kv => (slookup kv.1 a).isNone)

/-- The default safety thresholds of the GEMINI_JSON branch. -/
def geminiDefaultSafetySettings : SafetySettings :=
  [(.HARM_CATEGORY_HATE_SPEECH, .BLOCK_ONLY_HIGH),
   (.HARM_CATEGORY_HARASSMENT, .BLOCK_ONLY_HIGH),
   (.HARM_CATEGORY_DANGEROUS_CONTENT, .BLOCK_ONLY_HIGH)]

/-- Embeds `new_kwargs["safety_settings"] = new_kwargs.get("safety_settings",
{}) | {...defaults...}` of the GEMINI_JSON branch. -/
def geminiApplySafetySettings (caller : Option SafetySettings) :
    SafetySettings :=
  pyDictOr (caller.getD []) geminiDefaultSafetySettings

/-! ### Gemini/Vertex schema conversion (`client_vertexai.py`) -/

/-- One entry of the `properties` dict of a JSON schema: its name and whether
the property description carries an explicit `"default"` key. -/
structure JsonProperty where
  pname : String
  hasDefault : Bool
deriving DecidableEq, Repr

/-- The slice of `model_json_schema()` (after `jsonref.replace_refs`, which
inlines `$defs` and does not touch `type` / `properties` / `required`) that
`_create_gemini_json_schema` reads: `type`, `properties`, and the `required`
list (`none` embeds the `KeyError` branch that substitutes `[]`). -/
structure JsonSchemaDoc where
  stype : String
  properties : List JsonProperty
  required : Option (List String)
deriving DecidableEq, Repr

/-- The schema shape `_create_gemini_json_schema` returns. -/
structure GeminiSchema where
  stype : String
  properties : List JsonProperty
  required : List String
deriving DecidableEq, Repr

/-- Embeds `_create_gemini_json_schema` (`client_vertexai.py`): the required
list starts from the declared `required` (or `[]` on `KeyError`) and every
property whose description carries a `"default"` is appended to it. -/
def _create_gemini_json_schema (schema : JsonSchemaDoc) : GeminiSchema :=
  let required_properties := schema.required.getD []
  let required_properties := required_properties
    ++ (schema.properties.filter (fun p => p.hasDefault)).map
      (fun p => p.pname)
  { stype := schema.stype
    properties := schema.properties
    required := required_properties }

/-! ### Auxiliary definitions used by the theorems -/

/-- Builds the environment script of a run whose listed attempts all return a
response that fails parsing with the paired retriable exception. -/
def failingAttempts (fails : List (ChatCompletionResp × RetriableError)) :
    List AttemptOutcome :=
  fails.map (fun p => AttemptOutcome.returns p.1 (some p.2))

/-- Folds the usage accumulation of the retry loop over a list of per-attempt
usages. -/
def usageTotal (total : CompletionUsage) (us : List (Option CompletionUsage)) :
    CompletionUsage :=
  us.foldl accUsage total

/-- The usage overwrite the loop performs on a response before handing it
onward: present usage is replaced by the running total, absent usage is left
absent. -/
def overwriteUsage (r : ChatCompletionResp) (t : CompletionUsage) :
    ChatCompletionResp :=
  match r.usage with
  | some _ => { r with usage := some t }
  | none => r

/-- True when an Anthropic-mode handler raised the dual-system `ValueError`. -/
def anthropicRaised (x : Except String AnthropicResult) : Bool :=
  match x with
  | .error _ => true
  | .ok _ => false

/-- A sample tool call used by concrete runs. -/
def sampleToolCall : ToolCall :=
  { id := "call_1", arguments := "\x7b\x7d", fname := "User" }

/-- A sample failing assistant message carrying one tool call. -/
def sampleFailMessage : CompletionMessage :=
  { role := Role.assistant
    content := some "bad output"
    tool_calls := some [sampleToolCall]
    function_call := none }

/-- The per-attempt usage of the spec's worked example. -/
def sampleUsage : CompletionUsage :=
  { completion_tokens := 10, prompt_tokens := 5, total_tokens := 15 }

/-- A sample response reporting `sampleUsage`. -/
def sampleResp : ChatCompletionResp :=
  { message := sampleFailMessage, usage := some sampleUsage }

/-- A sample retriable exception. -/
def sampleError : RetriableError :=
  RetriableError.validationError "1 validation error for User\nage\n  field required"

/-! ## Helper lemmas -/

theorem overwriteUsage_message (r : ChatCompletionResp) (t : CompletionUsage) :
    (overwriteUsage r t).message = r.message := by
  cases hr : r.usage <;> simp [overwriteUsage, hr]

theorem toolFailureTurn_overwriteUsage (c : String) (r : ChatCompletionResp)
    (t : CompletionUsage) :
    toolFailureTurn c (overwriteUsage r t) = toolFailureTurn c r := by
  cases hr : r.usage <;> simp [overwriteUsage, hr, toolFailureTurn]

theorem correctiveBlock_eq (toolContent : RetriableError → String)
    (userTurn : RetriableError → ChatMessage) (mode : Mode)
    (resp : ChatCompletionResp) (e : RetriableError)
    (h : mode = Mode.TOOLS → resp.message.tool_calls.getD [] ≠ []) :
    correctiveBlock toolContent userTurn mode resp e
      = some ((if mode = Mode.TOOLS then
            (toolFailureTurn (toolContent e) resp).toList else [])
          ++ ([dump_message resp.message, userTurn e]
            ++ (if mode = Mode.MD_JSON then [mdJsonRetryTurn] else []))) := by
  by_cases hT : mode = Mode.TOOLS
  · subst hT
    rcases h1 : resp.message.tool_calls with _ | l
    · have h2 := h rfl
      rw [h1] at h2
      simp at h2
    · cases l with
      | nil =>
        have h2 := h rfl
        rw [h1] at h2
        simp at h2
      | cons tc0 tl =>
        simp [correctiveBlock, toolFailureTurn, h1]
  · simp [correctiveBlock, hT]

theorem retryCore_zero_fail_eq (toolContent : RetriableError → String)
    (userTurn : RetriableError → ChatMessage) (mode : Mode)
    (r : ChatCompletionResp) (e : RetriableError) (msgs : List ChatMessage)
    (block : List ChatMessage)
    (hblock : correctiveBlock toolContent userTurn mode
        (overwriteUsage r (accUsage ⟨0, 0, 0⟩ r.usage)) e = some block) :
    retryCore toolContent userTurn mode 0
        [AttemptOutcome.returns r (some e)] msgs
      = ⟨RetryOutcome.raised e, msgs ++ block, accUsage ⟨0, 0, 0⟩ r.usage, 1⟩ := by
  rcases hru : r.usage with _ | u <;>
    rw [hru] at hblock <;>
    simp only [overwriteUsage, hru] at hblock <;>
    simp [retryCore, retryStep, hru, hblock]

theorem retryStep_fails_then_success (toolContent : RetriableError → String)
    (userTurn : RetriableError → ChatMessage) (mode : Mode)
    (s : ChatCompletionResp) :
    ∀ (fails : List (ChatCompletionResp × RetriableError)) (fuel : Nat)
      (msgs : List ChatMessage) (total : CompletionUsage) (inv : Nat),
      fails.length < fuel →
      (mode = Mode.TOOLS →
        ∀ p ∈ fails, p.1.message.tool_calls.getD [] ≠ []) →
      ∃ msgs2,
        retryStep toolContent userTurn mode fuel
            (failingAttempts fails ++ [AttemptOutcome.returns s none])
            msgs total inv
          = ⟨RetryOutcome.success
                (overwriteUsage s
                  (usageTotal total (fails.map (fun p => p.1.usage) ++ [s.usage]))),
              msgs2,
              usageTotal total (fails.map (fun p => p.1.usage) ++ [s.usage]),
              inv + fails.length + 1⟩ := by
  intro fails
  induction fails with
  | nil =>
    intro fuel msgs total inv hlen _
    cases fuel with
    | zero => omega
    | succ f =>
      refine ⟨msgs, ?_⟩
      cases hsu : s.usage with
      | none => simp [retryStep, failingAttempts, usageTotal, overwriteUsage, hsu]
      | some u => simp [retryStep, failingAttempts, usageTotal, overwriteUsage, hsu]
  | cons p rest ih =>
    intro fuel msgs total inv hlen htc
    obtain ⟨r, e⟩ := p
    cases fuel with
    | zero => omega
    | succ f =>
      have hf : rest.length < f := by
        simp only [List.length_cons] at hlen
        omega
      have htc2 : mode = Mode.TOOLS →
          ∀ q ∈ rest, q.1.message.tool_calls.getD [] ≠ [] :=
        fun hm q hq => htc hm q (List.mem_cons_of_mem _ hq)
      have hhead : mode = Mode.TOOLS →
          (overwriteUsage r (accUsage total r.usage)).message.tool_calls.getD []
            ≠ [] := by
        rw [overwriteUsage_message]
        exact fun hm => htc hm (r, e) (List.mem_cons_self _ _)
      have hblock := correctiveBlock_eq toolContent userTurn mode
        (overwriteUsage r (accUsage total r.usage)) e hhead
      obtain ⟨msgs2, hrec⟩ := ih f
        (msgs ++ ((if mode = Mode.TOOLS then
            (toolFailureTurn (toolContent e)
              (overwriteUsage r (accUsage total r.usage))).toList else [])
          ++ ([dump_message (overwriteUsage r (accUsage total r.usage)).message,
                userTurn e]
            ++ (if mode = Mode.MD_JSON then [mdJsonRetryTurn] else []))))
        (accUsage total r.usage) (inv + 1) hf htc2
      refine ⟨msgs2, ?_⟩
      have hfz : ¬ (f = 0) := by omega
      have harith : inv + 1 + rest.length + 1 = inv + (rest.length + 1) + 1 := by
        omega
      rw [harith] at hrec
      rcases hru : r.usage with _ | u
      all_goals
        simp only [overwriteUsage, hru] at hblock hrec
        simp only [failingAttempts, List.map_cons, List.cons_append,
          List.length_cons]
        simp [retryStep, hru, hblock, hfz]
        exact hrec

theorem slookup_append (k : HarmCategory) (xs ys : SafetySettings) :
    slookup k (xs ++ ys)
      = match slookup k xs with
        | some v => some v
        | none => slookup k ys := by
  induction xs with
  | nil => simp [slookup]
  | cons kv rest ih =>
    obtain ⟨k2, v⟩ := kv
    by_cases h : k2 = k
    · simp [slookup, h]
    · simp [slookup, h, ih]

theorem slookup_mapOr (k : HarmCategory) (b : SafetySettings)
    (a : SafetySettings) :
    slookup k (a.map (fun kv => (kv.1, (slookup kv.1 b).getD kv.2)))
      = (slookup k a).map (fun v => (slookup k b).getD v) := by
  induction a with
  | nil => simp [slookup]
  | cons kv rest ih =>
    obtain ⟨k2, v⟩ := kv
    by_cases h : k2 = k
    · subst h
      simp [slookup]
    · simp [slookup, h, ih]

theorem slookup_filter_absent (k : HarmCategory) (a b : SafetySettings) :
    slookup k (b.filter (fun kv => (slookup kv.1 a).isNone))
      = if (slookup k a).isNone then slookup k b else none := by
  induction b with
  | nil => simp [slookup]
  | cons kv rest ih =>
    obtain ⟨k2, v⟩ := kv
    simp only [List.filter_cons]
    cases hn : (slookup k2 a).isNone with
    | true =>
      by_cases hk : k2 = k
      · subst hk
        simp [slookup, hn]
      · simp [slookup, hk, ih]
    | false =>
      by_cases hk : k2 = k
      · subst hk
        simp [slookup, hn, ih]
      · simp [slookup, hk, ih]

theorem slookup_pyDictOr (k : HarmCategory) (a b : SafetySettings) :
    slookup k (pyDictOr a b)
      = match slookup k a, slookup k b with
        | some _, some w => some w
        | some v, none => some v
        | none, w => w := by
  unfold pyDictOr
  rw [slookup_append, slookup_mapOr, slookup_filter_absent]
  cases ha : slookup k a <;> cases hb : slookup k b <;> simp [ha, hb]

/-! ## Claim theorems -/

/-- C1: for every logical call through the retry orchestrator whose failing
attempts all return responses that fail parsing and whose last attempt
succeeds, the usage reported by each attempt is summed into the running total
and the successful response's own usage field is overwritten with that total
before being handed onward; the number of transport invocations is the number
of failing attempts plus one.  Holds for `retry_sync` and `retry_async`
alike. -/
theorem retry_usage_totals (mode : Mode) (max_retries : Nat)
    (fails : List (ChatCompletionResp × RetriableError))
    (s : ChatCompletionResp) (msgs : List ChatMessage)
    (hlen : fails.length ≤ max_retries)
    (htools : mode = Mode.TOOLS →
      ∀ p ∈ fails, p.1.message.tool_calls.getD [] ≠ [])
    (hus : s.usage.isSome) :
    ∃ msgsSync msgsAsync,
      retry_sync mode max_retries
          (failingAttempts fails ++ [AttemptOutcome.returns s none]) msgs
        = ⟨RetryOutcome.success
              { s with usage := some (usageTotal ⟨0, 0, 0⟩
                  (fails.map (fun p => p.1.usage) ++ [s.usage])) },
            msgsSync,
            usageTotal ⟨0, 0, 0⟩ (fails.map (fun p => p.1.usage) ++ [s.usage]),
            fails.length + 1⟩
      ∧ retry_async mode max_retries
          (failingAttempts fails ++ [AttemptOutcome.returns s none]) msgs
        = ⟨RetryOutcome.success
              { s with usage := some (usageTotal ⟨0, 0, 0⟩
                  (fails.map (fun p => p.1.usage) ++ [s.usage])) },
            msgsAsync,
            usageTotal ⟨0, 0, 0⟩ (fails.map (fun p => p.1.usage) ++ [s.usage]),
            fails.length + 1⟩ := by
  obtain ⟨u, hu⟩ := Option.isSome_iff_exists.mp hus
  have hov : overwriteUsage s (usageTotal ⟨0, 0, 0⟩
      (fails.map (fun p => p.1.usage) ++ [s.usage]))
      = { s with usage := some (usageTotal ⟨0, 0, 0⟩
          (fails.map (fun p => p.1.usage) ++ [s.usage])) } := by
    simp [overwriteUsage, hu]
  have hfuel : fails.length < max_retries + 1 := by omega
  obtain ⟨m1, h1⟩ := retryStep_fails_then_success
    (fun e => "Recall the function correctly, fix the errors and exceptions found\n"
      ++ e.text) syncUserTurn mode s fails (max_retries + 1) msgs ⟨0, 0, 0⟩ 0
    hfuel htools
  obtain ⟨m2, h2⟩ := retryStep_fails_then_success
    (fun _ => "failure") asyncUserTurn mode s fails (max_retries + 1) msgs
    ⟨0, 0, 0⟩ 0 hfuel htools
  rw [hov] at h1 h2
  refine ⟨m1, m2, ?_, ?_⟩
  · rw [retry_sync, retryCore, h1]
    have : 0 + fails.length + 1 = fails.length + 1 := by omega
    rw [this]
  · rw [retry_async, retryCore, h2]
    have : 0 + fails.length + 1 = fails.length + 1 := by omega
    rw [this]

/-- C1 witness: three attempts each reporting usage (10, 5, 15) — two failing
validation, the third succeeding — yield a final observed usage of
(30, 15, 45) after three transport invocations, in both orchestrators. -/
theorem retry_usage_totals_witness :
    ∃ msgsSync msgsAsync,
      retry_sync Mode.FUNCTIONS 2
          (failingAttempts [(sampleResp, sampleError), (sampleResp, sampleError)]
            ++ [AttemptOutcome.returns sampleResp none]) []
        = ⟨RetryOutcome.success
              { sampleResp with usage := some ⟨30, 15, 45⟩ },
            msgsSync, ⟨30, 15, 45⟩, 3⟩
      ∧ retry_async Mode.FUNCTIONS 2
          (failingAttempts [(sampleResp, sampleError), (sampleResp, sampleError)]
            ++ [AttemptOutcome.returns sampleResp none]) []
        = ⟨RetryOutcome.success
              { sampleResp with usage := some ⟨30, 15, 45⟩ },
            msgsAsync, ⟨30, 15, 45⟩, 3⟩ := by
  exact retry_usage_totals Mode.FUNCTIONS 2
    [(sampleResp, sampleError), (sampleResp, sampleError)] sampleResp []
    (by decide) (by intro h; exact absurd h (by decide)) (by decide)

/-- C2 counterexample: on a retriable failure in TOOLS mode the code appends
the tool-result failure marker first and the failing assistant message second,
not the other way around as the claim states. -/
theorem corrective_order_counterexample :
    (retry_sync Mode.TOOLS 0
        [AttemptOutcome.returns sampleResp (some sampleError)] []).messages
      = [{ role := Role.tool
           content :=
             "Recall the function correctly, fix the errors and exceptions found\n"
               ++ sampleError.text
           tool_call_id := some "call_1"
           participant := some "User" },
         dump_message sampleFailMessage,
         syncUserTurn sampleError]
    ∧ (retry_sync Mode.TOOLS 0
        [AttemptOutcome.returns sampleResp (some sampleError)] []).messages
      ≠ [dump_message sampleFailMessage,
         { role := Role.tool
           content :=
             "Recall the function correctly, fix the errors and exceptions found\n"
               ++ sampleError.text
           tool_call_id := some "call_1"
           participant := some "User" },
         syncUserTurn sampleError] := by
  exact ⟨rfl, by decide⟩

/-- C2 amended: for every retriable failure, the corrective turns are appended
in exactly this order: first (for TOOLS mode only) the tool-result message
marking the failed call, then the failing assistant message as serialized by
`dump_message`, then the corrective user message quoting the exception, then
(for MD_JSON only) the fenced-code-block opening line.  Stated over
`retryCore`, which covers `retry_sync` and `retry_async`. -/
theorem corrective_turn_order (toolContent : RetriableError → String)
    (userTurn : RetriableError → ChatMessage) (mode : Mode)
    (r : ChatCompletionResp) (e : RetriableError) (msgs : List ChatMessage)
    (htc : mode = Mode.TOOLS → r.message.tool_calls.getD [] ≠ []) :
    (retryCore toolContent userTurn mode 0
        [AttemptOutcome.returns r (some e)] msgs).messages
      = msgs
        ++ ((if mode = Mode.TOOLS then
              (toolFailureTurn (toolContent e) r).toList else [])
          ++ ([dump_message r.message, userTurn e]
            ++ (if mode = Mode.MD_JSON then [mdJsonRetryTurn] else []))) := by
  have htc2 : mode = Mode.TOOLS →
      (overwriteUsage r (accUsage ⟨0, 0, 0⟩ r.usage)).message.tool_calls.getD []
        ≠ [] := by
    rw [overwriteUsage_message]
    exact htc
  have hblock := correctiveBlock_eq toolContent userTurn mode
    (overwriteUsage r (accUsage ⟨0, 0, 0⟩ r.usage)) e htc2
  rw [retryCore_zero_fail_eq toolContent userTurn mode r e msgs _ hblock]
  simp [overwriteUsage_message, toolFailureTurn_overwriteUsage]

/-- C2 amended, witness: a concrete TOOLS-mode run exhibiting the order. -/
theorem corrective_turn_order_witness :
    (retryCore
        (fun e =>
          "Recall the function correctly, fix the errors and exceptions found\n"
            ++ e.text)
        syncUserTurn Mode.TOOLS 0
        [AttemptOutcome.returns sampleResp (some sampleError)] []).messages
      = []
        ++ ((if Mode.TOOLS = Mode.TOOLS then
              (toolFailureTurn
                ("Recall the function correctly, fix the errors and exceptions found\n"
                  ++ sampleError.text) sampleResp).toList else [])
          ++ ([dump_message sampleResp.message, syncUserTurn sampleError]
            ++ (if Mode.TOOLS = Mode.MD_JSON then [mdJsonRetryTurn] else []))) := by
  exact corrective_turn_order _ syncUserTurn Mode.TOOLS sampleResp sampleError []
    (by decide)

/-- C4 counterexample: with `max_retries = 0` and an invalid first response
the code makes one transport invocation and then re-raises the bare
`ValidationError` (`raise e`); the raised error exposes no raw response, so no
`TerminalRetryError` carrying a `last_completion` for the sole attempt
exists. -/
theorem terminal_raise_counterexample :
    (retry_sync Mode.FUNCTIONS 0
        [AttemptOutcome.returns sampleResp (some sampleError)] []).outcome
      = RetryOutcome.raised sampleError
    ∧ RetryOutcome.lastCompletion
        (retry_sync Mode.FUNCTIONS 0
          [AttemptOutcome.returns sampleResp (some sampleError)] []).outcome
      = none
    ∧ (retry_sync Mode.FUNCTIONS 0
        [AttemptOutcome.returns sampleResp (some sampleError)] []).invocations
      = 1 := by
  exact ⟨rfl, rfl, rfl⟩

/-- C4 amended: when `max_retries = 0` and the first response fails
parsing/validation, both orchestrators make exactly one transport invocation
and re-raise the causing `ValidationError`/`JSONDecodeError` itself (after
appending the corrective turns); the raised exception carries no raw
response. -/
theorem max_retries_zero_behaviour (mode : Mode) (r : ChatCompletionResp)
    (e : RetriableError) (msgs : List ChatMessage)
    (htc : mode = Mode.TOOLS → r.message.tool_calls.getD [] ≠ []) :
    ((retry_sync mode 0 [AttemptOutcome.returns r (some e)] msgs).outcome
        = RetryOutcome.raised e
      ∧ (retry_sync mode 0 [AttemptOutcome.returns r (some e)] msgs).invocations
        = 1
      ∧ RetryOutcome.lastCompletion
          (retry_sync mode 0 [AttemptOutcome.returns r (some e)] msgs).outcome
        = none)
    ∧ ((retry_async mode 0 [AttemptOutcome.returns r (some e)] msgs).outcome
        = RetryOutcome.raised e
      ∧ (retry_async mode 0 [AttemptOutcome.returns r (some e)] msgs).invocations
        = 1
      ∧ RetryOutcome.lastCompletion
          (retry_async mode 0 [AttemptOutcome.returns r (some e)] msgs).outcome
        = none) := by
  have htc2 : mode = Mode.TOOLS →
      (overwriteUsage r (accUsage ⟨0, 0, 0⟩ r.usage)).message.tool_calls.getD []
        ≠ [] := by
    rw [overwriteUsage_message]
    exact htc
  constructor
  · rw [retry_sync, retryCore_zero_fail_eq _ _ mode r e msgs _
      (correctiveBlock_eq _ syncUserTurn mode _ e htc2)]
    exact ⟨rfl, rfl, rfl⟩
  · rw [retry_async, retryCore_zero_fail_eq _ _ mode r e msgs _
      (correctiveBlock_eq _ asyncUserTurn mode _ e htc2)]
    exact ⟨rfl, rfl, rfl⟩

/-- C4 amended, witness: concrete run in FUNCTIONS mode. -/
theorem max_retries_zero_behaviour_witness :
    ((retry_sync Mode.FUNCTIONS 0
        [AttemptOutcome.returns sampleResp (some sampleError)] []).outcome
        = RetryOutcome.raised sampleError
      ∧ (retry_sync Mode.FUNCTIONS 0
          [AttemptOutcome.returns sampleResp (some sampleError)] []).invocations
        = 1
      ∧ RetryOutcome.lastCompletion
          (retry_sync Mode.FUNCTIONS 0
            [AttemptOutcome.returns sampleResp (some sampleError)] []).outcome
        = none)
    ∧ ((retry_async Mode.FUNCTIONS 0
        [AttemptOutcome.returns sampleResp (some sampleError)] []).outcome
        = RetryOutcome.raised sampleError
      ∧ (retry_async Mode.FUNCTIONS 0
          [AttemptOutcome.returns sampleResp (some sampleError)] []).invocations
        = 1
      ∧ RetryOutcome.lastCompletion
          (retry_async Mode.FUNCTIONS 0
            [AttemptOutcome.returns sampleResp (some sampleError)] []).outcome
        = none) := by
  exact max_retries_zero_behaviour Mode.FUNCTIONS sampleResp sampleError []
    (by intro h; exact absurd h (by decide))

/-- C5: an exception from the transport that is not a `ValidationError` or a
`JSONDecodeError` is never retried: both orchestrators propagate it after a
single invocation with zero corrective turns appended (the conversation is
returned exactly as it was). -/
theorem non_retriable_propagates (mode : Mode) (max_retries : Nat)
    (excMsg : String) (rest : List AttemptOutcome)
    (msgs : List ChatMessage) :
    retry_sync mode max_retries (AttemptOutcome.raises excMsg :: rest) msgs
      = ⟨RetryOutcome.transportError excMsg, msgs, ⟨0, 0, 0⟩, 1⟩
    ∧ retry_async mode max_retries (AttemptOutcome.raises excMsg :: rest) msgs
      = ⟨RetryOutcome.transportError excMsg, msgs, ⟨0, 0, 0⟩, 1⟩ := by
  exact ⟨rfl, rfl⟩

/-- C8 counterexample: in GEMINI_JSON mode a caller-supplied threshold for one
of the three default harm categories is overwritten by the default
`BLOCK_ONLY_HIGH` rather than preserved. -/
theorem gemini_safety_preserve_counterexample :
    slookup HarmCategory.HARM_CATEGORY_HATE_SPEECH
        (geminiApplySafetySettings (some
          [(HarmCategory.HARM_CATEGORY_HATE_SPEECH,
            HarmBlockThreshold.BLOCK_NONE)]))
      = some HarmBlockThreshold.BLOCK_ONLY_HIGH
    ∧ slookup HarmCategory.HARM_CATEGORY_HATE_SPEECH
        (geminiApplySafetySettings (some
          [(HarmCategory.HARM_CATEGORY_HATE_SPEECH,
            HarmBlockThreshold.BLOCK_NONE)]))
      ≠ some HarmBlockThreshold.BLOCK_NONE := by
  exact ⟨rfl, by decide⟩

/-- C8 amended: the GEMINI_JSON default safety thresholds are combined with
the caller's `safety_settings` by Python dict union with the defaults on the
right, so the defaults take precedence: every default category maps to its
default threshold in the output regardless of the caller's entry, while a
category outside the default set keeps the caller's threshold. -/
theorem gemini_safety_defaults_override (caller : SafetySettings)
    (c : HarmCategory) :
    (∀ d, slookup c geminiDefaultSafetySettings = some d →
        slookup c (geminiApplySafetySettings (some caller)) = some d)
    ∧ (slookup c geminiDefaultSafetySettings = none →
        slookup c (geminiApplySafetySettings (some caller))
          = slookup c caller) := by
  constructor
  · intro d hd
    show slookup c (pyDictOr caller geminiDefaultSafetySettings) = some d
    rw [slookup_pyDictOr, hd]
    cases slookup c caller <;> rfl
  · intro hd
    show slookup c (pyDictOr caller geminiDefaultSafetySettings)
      = slookup c caller
    rw [slookup_pyDictOr, hd]
    cases slookup c caller <;> rfl

/-- C8 amended, witness: a caller setting for HARASSMENT is overwritten by the
default, while a caller setting for the non-default SEXUALLY_EXPLICIT
category is preserved. -/
theorem gemini_safety_defaults_override_witness :
    slookup HarmCategory.HARM_CATEGORY_HARASSMENT
        (geminiApplySafetySettings (some
          [(HarmCategory.HARM_CATEGORY_HARASSMENT,
            HarmBlockThreshold.BLOCK_MEDIUM_AND_ABOVE),
           (HarmCategory.HARM_CATEGORY_SEXUALLY_EXPLICIT,
            HarmBlockThreshold.BLOCK_NONE)]))
      = some HarmBlockThreshold.BLOCK_ONLY_HIGH
    ∧ slookup HarmCategory.HARM_CATEGORY_SEXUALLY_EXPLICIT
        (geminiApplySafetySettings (some
          [(HarmCategory.HARM_CATEGORY_HARASSMENT,
            HarmBlockThreshold.BLOCK_MEDIUM_AND_ABOVE),
           (HarmCategory.HARM_CATEGORY_SEXUALLY_EXPLICIT,
            HarmBlockThreshold.BLOCK_NONE)]))
      = some HarmBlockThreshold.BLOCK_NONE := by
  constructor
  · exact (gemini_safety_defaults_override _ _).1 _ rfl
  · exact (gemini_safety_defaults_override _ _).2 rfl

/-- C9: the Gemini/Vertex schema conversion produces a required list equal to
the declared required fields followed by every property carrying an explicit
default, and — since default-bearing properties are not in the declared
required list — the result has no duplicates. -/
theorem gemini_required_backfill (schema : JsonSchemaDoc)
    (hreq : (schema.required.getD []).Nodup)
    (hnames : (schema.properties.map (fun p => p.pname)).Nodup)
    (hdefaults : ∀ p ∈ schema.properties, p.hasDefault = true →
        p.pname ∉ schema.required.getD []) :
    (_create_gemini_json_schema schema).required
      = schema.required.getD []
        ++ (schema.properties.filter (fun p => p.hasDefault)).map
          (fun p => p.pname)
    ∧ (_create_gemini_json_schema schema).required.Nodup := by
  refine ⟨rfl, ?_⟩
  have hsub : ((schema.properties.filter (fun p => p.hasDefault)).map
      (fun p => p.pname)).Sublist (schema.properties.map (fun p => p.pname)) :=
    (List.filter_sublist _).map _
  have h2 : ((schema.properties.filter (fun p => p.hasDefault)).map
      (fun p => p.pname)).Nodup := List.Nodup.sublist hsub hnames
  refine List.Nodup.append hreq h2 ?_
  intro a ha hb
  obtain ⟨p, hp, rfl⟩ := List.mem_map.mp hb
  have hpf := List.mem_filter.mp hp
  exact hdefaults p hpf.1 hpf.2 ha

/-- C9 witness: a schema with a required field `a` and a default-bearing
field `b` yields required list `["a", "b"]` with no duplicates. -/
theorem gemini_required_backfill_witness :
    (_create_gemini_json_schema
        { stype := "object"
          properties := [{ pname := "a", hasDefault := false },
                         { pname := "b", hasDefault := true }]
          required := some ["a"] }).required = ["a", "b"]
    ∧ (_create_gemini_json_schema
        { stype := "object"
          properties := [{ pname := "a", hasDefault := false },
                         { pname := "b", hasDefault := true }]
          required := some ["a"] }).required.Nodup := by
  have h := gemini_required_backfill
    { stype := "object"
      properties := [{ pname := "a", hasDefault := false },
                     { pname := "b", hasDefault := true }]
      required := some ["a"] }
    (by decide) (by decide) (by decide)
  exact ⟨h.1, h.2⟩

/-- C10: `dump_message` preserves the role, always produces a string content —
a `None` content becomes the empty string — and concatenates the JSON
serialization of any `tool_calls` / `function_call` payload onto that content
(also storing the serialized `tool_calls` under the `tool_calls` key), so the
re-appended content is generally not byte-for-byte the original content. -/
theorem dump_message_content (m : CompletionMessage) :
    (dump_message m).role = m.role
    ∧ (dump_message m).content
        = m.content.getD ""
          ++ ((match m.tool_calls with
              | some tcs => dumpsToolCalls tcs
              | none => "")
            ++ (match m.function_call with
              | some fc => dumpsFunctionCall fc
              | none => ""))
    ∧ (dump_message m).tool_calls_payload = m.tool_calls.map dumpsToolCalls
    ∧ ∃ mm : CompletionMessage,
        (dump_message mm).content ≠ mm.content.getD "" := by
  refine ⟨rfl, ?_, rfl, ⟨sampleFailMessage, by decide⟩⟩
  exact String.append_assoc _ _ _

theorem handleJsonModeStore_false_eq (schemaMsg : String) (store : Store)
    (ref : Nat) :
    handleJsonModeStore false schemaMsg store ref
      = match jsonPlacement schemaMsg (readList store ref) with
        | none => none
        | some out => some (writeList store ref out, ref) := rfl

theorem handleJsonModeStore_true_eq (schemaMsg : String) (store : Store)
    (ref : Nat) :
    handleJsonModeStore true schemaMsg store ref
      = match jsonPlacement schemaMsg
            (readList
              (writeList store ref (readList store ref ++ [mdJsonUserRequest])
                ++ [merge_consecutive_messages
                    (readList store ref ++ [mdJsonUserRequest])])
              (writeList store ref
                (readList store ref ++ [mdJsonUserRequest])).length) with
        | none => none
        | some out =>
          some (writeList
              (writeList store ref (readList store ref ++ [mdJsonUserRequest])
                ++ [merge_consecutive_messages
                    (readList store ref ++ [mdJsonUserRequest])])
              (writeList store ref
                (readList store ref ++ [mdJsonUserRequest])).length out,
            (writeList store ref
              (readList store ref ++ [mdJsonUserRequest])).length) := rfl

theorem readList_writeList_self (s : Store) (r : Nat) (l : List ChatMessage)
    (h : r < s.length) :
    readList (writeList s r l) r = l := by
  induction s generalizing r with
  | nil => simp at h
  | cons x xs ih =>
    cases r with
    | zero => rfl
    | succ n =>
      have h2 : n < xs.length := by
        simp only [List.length_cons] at h
        omega
      exact ih n h2

theorem readList_alloc (s : Store) (l : List ChatMessage) :
    readList (s ++ [l]) s.length = l := by
  induction s with
  | nil => rfl
  | cons y ys ih => exact ih

theorem merge_head_struct (m : ChatMessage) (l : List ChatMessage) :
    ∃ first tail, merge_consecutive_messages (m :: l) = first :: tail
      ∧ first.role = m.role
      ∧ ∃ suf, first.content = m.content ++ suf := by
  cases hm : merge_consecutive_messages l with
  | nil =>
    refine ⟨m, [], ?_, rfl, ⟨"", (String.append_empty m.content).symm⟩⟩
    simp [merge_consecutive_messages, hm]
  | cons m2 rest2 =>
    by_cases hr : m.role = m2.role
    · refine ⟨{ m with content := m.content ++ "\n\n" ++ m2.content }, rest2,
        ?_, rfl, ⟨"\n\n" ++ m2.content, String.append_assoc _ _ _⟩⟩
      simp [merge_consecutive_messages, hm, hr]
    · refine ⟨m, m2 :: rest2, ?_, rfl,
        ⟨"", (String.append_empty m.content).symm⟩⟩
      simp [merge_consecutive_messages, hm, hr]

theorem merge_roles (P : Role → Prop) :
    ∀ l : List ChatMessage, (∀ m ∈ l, P m.role) →
      ∀ m ∈ merge_consecutive_messages l, P m.role := by
  intro l
  induction l with
  | nil =>
    intro _ m hm
    simp [merge_consecutive_messages] at hm
  | cons x xs ih =>
    intro hall m hm
    have hx : P x.role := hall x (List.mem_cons_self _ _)
    have htail : ∀ q ∈ xs, P q.role :=
      fun q hq => hall q (List.mem_cons_of_mem _ hq)
    simp only [merge_consecutive_messages] at hm
    cases hmm : merge_consecutive_messages xs with
    | nil =>
      rw [hmm] at hm
      simp at hm
      subst hm
      exact hx
    | cons m2 rest2 =>
      rw [hmm] at hm
      dsimp only [] at hm
      by_cases hr : x.role = m2.role
      · rw [if_pos hr] at hm
        rcases List.mem_cons.mp hm with rfl | hm2
        · exact hx
        · exact ih htail m (by rw [hmm]; exact List.mem_cons_of_mem _ hm2)
      · rw [if_neg hr] at hm
        rcases List.mem_cons.mp hm with rfl | hm2
        · exact hx
        · exact ih htail m (by rw [hmm]; exact hm2)

/-- C3 counterexample: FUNCTIONS mode (a supported mode) leaves a
non-system-first conversation untouched — the first message stays a user
message, and no system message carrying the schema appears; and MD_JSON with
a system-first single-message conversation grows the message count from 1 to
2, so a new message is inserted. -/
theorem schema_placement_counterexample :
    handleMessagesStore Mode.FUNCTIONS "SCHEMA"
        [[{ role := Role.user, content := "hi" }]] 0
      = some ([[{ role := Role.user, content := "hi" }]], 0)
    ∧ (readList [[{ role := Role.user, content := "hi" }]] 0).head?.map
        (fun mm => mm.role) = some Role.user
    ∧ Role.user ≠ Role.system
    ∧ (match handleMessagesStore Mode.MD_JSON "SCHEMA"
          [[{ role := Role.system, content := "s" }]] 0 with
       | some (st, r) => (readList st r).length
       | none => 0) = 2
    ∧ ([{ role := Role.system, content := "s" }] : List ChatMessage).length
        = 1 := by
  exact ⟨rfl, rfl, by decide, rfl, rfl⟩

/-- C3 amended: for the modes that inject the schema instruction into the
conversation (JSON, JSON_SCHEMA, MD_JSON), a conversation whose first message
is non-system yields one whose new first message is the system message
carrying the rendered schema; when the first message is already a system
message its content strictly grows by the appended schema text and, for JSON
and JSON_SCHEMA, no new message is inserted (MD_JSON additionally appends a
trailing user request before merging).  The other modes do not follow the
placement rule: FUNCTIONS/TOOLS/MISTRAL_TOOLS leave the conversation
untouched. -/
theorem schema_placement_amended (mode : Mode) (schemaMsg : String)
    (store : Store) (ref : Nat) (m : ChatMessage) (rest : List ChatMessage)
    (hmode : mode = Mode.JSON ∨ mode = Mode.JSON_SCHEMA ∨ mode = Mode.MD_JSON)
    (hread : readList store ref = m :: rest)
    (href : ref < store.length) :
    ∃ st2 ref2, handleMessagesStore mode schemaMsg store ref = some (st2, ref2)
      ∧ (m.role ≠ Role.system →
          (readList st2 ref2).head? = some (jsonSystemMessage schemaMsg))
      ∧ (m.role = Role.system →
          ∃ first tail suf, readList st2 ref2 = first :: tail
            ∧ first.role = Role.system
            ∧ first.content = m.content ++ suf ++ "\n\n" ++ schemaMsg
            ∧ m.content.length < first.content.length
            ∧ ((mode = Mode.JSON ∨ mode = Mode.JSON_SCHEMA) →
                readList st2 ref2
                  = { m with content := m.content ++ "\n\n" ++ schemaMsg }
                    :: rest)) := by
  rcases hmode with hm1 | hm1 | hm1 <;> subst hm1
  · -- Mode.JSON
    by_cases hrole : m.role = Role.system
    · refine ⟨writeList store ref
          ({ m with content := m.content ++ "\n\n" ++ schemaMsg } :: rest), ref,
          ?_, ?_, ?_⟩
      · show handleJsonModeStore false schemaMsg store ref = _
        rw [handleJsonModeStore_false_eq, hread]
        simp [jsonPlacement, hrole]
      · intro hc
        exact absurd hrole hc
      · intro _
        refine ⟨{ m with content := m.content ++ "\n\n" ++ schemaMsg }, rest, "",
          readList_writeList_self _ _ _ href, hrole, ?_, ?_, ?_⟩
        · show m.content ++ "\n\n" ++ schemaMsg
            = m.content ++ "" ++ "\n\n" ++ schemaMsg
          rw [String.append_empty]
        · show m.content.length < (m.content ++ "\n\n" ++ schemaMsg).length
          have h2 : ("\n\n" : String).length = 2 := rfl
          simp only [String.length_append, h2]
          omega
        · intro _
          exact readList_writeList_self _ _ _ href
    · refine ⟨writeList store ref (jsonSystemMessage schemaMsg :: m :: rest),
        ref, ?_, ?_, ?_⟩
      · show handleJsonModeStore false schemaMsg store ref = _
        rw [handleJsonModeStore_false_eq, hread]
        simp [jsonPlacement, hrole]
      · intro _
        rw [readList_writeList_self _ _ _ href]
        rfl
      · intro hc
        exact absurd hc hrole
  · -- Mode.JSON_SCHEMA
    by_cases hrole : m.role = Role.system
    · refine ⟨writeList store ref
          ({ m with content := m.content ++ "\n\n" ++ schemaMsg } :: rest), ref,
          ?_, ?_, ?_⟩
      · show handleJsonModeStore false schemaMsg store ref = _
        rw [handleJsonModeStore_false_eq, hread]
        simp [jsonPlacement, hrole]
      · intro hc
        exact absurd hrole hc
      · intro _
        refine ⟨{ m with content := m.content ++ "\n\n" ++ schemaMsg }, rest, "",
          readList_writeList_self _ _ _ href, hrole, ?_, ?_, ?_⟩
        · show m.content ++ "\n\n" ++ schemaMsg
            = m.content ++ "" ++ "\n\n" ++ schemaMsg
          rw [String.append_empty]
        · show m.content.length < (m.content ++ "\n\n" ++ schemaMsg).length
          have h2 : ("\n\n" : String).length = 2 := rfl
          simp only [String.length_append, h2]
          omega
        · intro _
          exact readList_writeList_self _ _ _ href
    · refine ⟨writeList store ref (jsonSystemMessage schemaMsg :: m :: rest),
        ref, ?_, ?_, ?_⟩
      · show handleJsonModeStore false schemaMsg store ref = _
        rw [handleJsonModeStore_false_eq, hread]
        simp [jsonPlacement, hrole]
      · intro _
        rw [readList_writeList_self _ _ _ href]
        rfl
      · intro hc
        exact absurd hc hrole
  · -- Mode.MD_JSON
    obtain ⟨first0, tail0, hmg, hrole0, suf0, hc0⟩ :=
      merge_head_struct m (rest ++ [mdJsonUserRequest])
    have hmerged : merge_consecutive_messages
        (readList store ref ++ [mdJsonUserRequest]) = first0 :: tail0 := by
      rw [hread]
      exact hmg
    have hwlen : (writeList store ref
          (readList store ref ++ [mdJsonUserRequest])).length
        < ((writeList store ref (readList store ref ++ [mdJsonUserRequest]))
            ++ [first0 :: tail0]).length := by
      simp
    by_cases hrole : m.role = Role.system
    · refine ⟨writeList
          (writeList store ref (readList store ref ++ [mdJsonUserRequest])
            ++ [first0 :: tail0])
          (writeList store ref
            (readList store ref ++ [mdJsonUserRequest])).length
          ({ first0 with content := first0.content ++ "\n\n" ++ schemaMsg }
            :: tail0),
        (writeList store ref
          (readList store ref ++ [mdJsonUserRequest])).length, ?_, ?_, ?_⟩
      · show handleJsonModeStore true schemaMsg store ref = _
        rw [handleJsonModeStore_true_eq, readList_alloc, hmerged]
        have hr0 : first0.role = Role.system := by rw [hrole0, hrole]
        simp [jsonPlacement, hr0]
      · intro hc
        exact absurd hrole hc
      · intro _
        refine ⟨{ first0 with content := first0.content ++ "\n\n" ++ schemaMsg },
          tail0, suf0, readList_writeList_self _ _ _ hwlen, ?_, ?_, ?_, ?_⟩
        · show first0.role = Role.system
          rw [hrole0, hrole]
        · show first0.content ++ "\n\n" ++ schemaMsg
            = m.content ++ suf0 ++ "\n\n" ++ schemaMsg
          rw [hc0]
        · show m.content.length
            < (first0.content ++ "\n\n" ++ schemaMsg).length
          rw [hc0]
          have h2 : ("\n\n" : String).length = 2 := rfl
          simp only [String.length_append, h2]
          omega
        · intro hq
          rcases hq with hq | hq <;> exact absurd hq (by decide)
    · refine ⟨writeList
          (writeList store ref (readList store ref ++ [mdJsonUserRequest])
            ++ [first0 :: tail0])
          (writeList store ref
            (readList store ref ++ [mdJsonUserRequest])).length
          (jsonSystemMessage schemaMsg :: first0 :: tail0),
        (writeList store ref
          (readList store ref ++ [mdJsonUserRequest])).length, ?_, ?_, ?_⟩
      · show handleJsonModeStore true schemaMsg store ref = _
        rw [handleJsonModeStore_true_eq, readList_alloc, hmerged]
        have hr0 : ¬ first0.role = Role.system := by
          rw [hrole0]
          exact hrole
        simp [jsonPlacement, hr0]
      · intro _
        rw [readList_writeList_self _ _ _ hwlen]
        rfl
      · intro hc
        exact absurd hc hrole

/-- C3 amended, witness: concrete JSON-mode run on a user-first conversation. -/
theorem schema_placement_amended_witness :
    ∃ st2 ref2, handleMessagesStore Mode.JSON "SCHEMA"
        [[{ role := Role.user, content := "hi" }]] 0 = some (st2, ref2)
      ∧ (({ role := Role.user, content := "hi" } : ChatMessage).role
            ≠ Role.system →
          (readList st2 ref2).head? = some (jsonSystemMessage "SCHEMA"))
      ∧ (({ role := Role.user, content := "hi" } : ChatMessage).role
            = Role.system →
          ∃ first tail suf, readList st2 ref2 = first :: tail
            ∧ first.role = Role.system
            ∧ first.content
                = ({ role := Role.user, content := "hi" } : ChatMessage).content
                  ++ suf ++ "\n\n" ++ "SCHEMA"
            ∧ ({ role := Role.user, content := "hi" } :
                ChatMessage).content.length < first.content.length
            ∧ ((Mode.JSON = Mode.JSON ∨ Mode.JSON = Mode.JSON_SCHEMA) →
                readList st2 ref2
                  = { ({ role := Role.user, content := "hi" } : ChatMessage) with
                        content :=
                          ({ role := Role.user, content := "hi" } :
                            ChatMessage).content ++ "\n\n" ++ "SCHEMA" }
                    :: [])) := by
  exact schema_placement_amended Mode.JSON "SCHEMA"
    [[{ role := Role.user, content := "hi" }]] 0
    { role := Role.user, content := "hi" } []
    (Or.inl rfl) rfl (by decide)

/-- C7 counterexample: `new_kwargs = kwargs.copy()` is a shallow copy, so the
JSON-mode handler inserts the schema system message through the caller's own
messages-list reference: after the call, the list behind the caller's
reference is no longer what the caller passed. -/
theorem kwargs_aliasing_counterexample :
    handleMessagesStore Mode.JSON "SCHEMA"
        [[{ role := Role.user, content := "hi" }]] 0
      = some ([[jsonSystemMessage "SCHEMA",
                { role := Role.user, content := "hi" }]], 0)
    ∧ readList [[jsonSystemMessage "SCHEMA",
        { role := Role.user, content := "hi" }]] 0
      ≠ [{ role := Role.user, content := "hi" }] := by
  exact ⟨rfl, by decide⟩

/-- C7 amended: `handle_response_model` shallow-copies the kwargs mapping, so
the messages list is aliased, not copied.  Handlers that only set top-level
keys (FUNCTIONS, TOOLS, MISTRAL_TOOLS) leave the caller's messages list
unchanged, but the JSON-mode handler's in-place insert of the schema system
message is visible through the caller's reference: after the call the
caller's list differs from what it was before. -/
theorem kwargs_messages_aliased (schemaMsg : String) (store : Store)
    (ref : Nat) (m : ChatMessage) (rest : List ChatMessage)
    (hread : readList store ref = m :: rest)
    (href : ref < store.length)
    (hrole : m.role ≠ Role.system) :
    (∀ mode, (mode = Mode.FUNCTIONS ∨ mode = Mode.TOOLS
        ∨ mode = Mode.MISTRAL_TOOLS) →
      handleMessagesStore mode schemaMsg store ref = some (store, ref))
    ∧ ∃ st2, handleMessagesStore Mode.JSON schemaMsg store ref
          = some (st2, ref)
        ∧ readList st2 ref = jsonSystemMessage schemaMsg :: m :: rest
        ∧ readList st2 ref ≠ readList store ref := by
  constructor
  · intro mode hmode
    rcases hmode with h | h | h <;> subst h <;> rfl
  · refine ⟨writeList store ref (jsonSystemMessage schemaMsg :: m :: rest),
      ?_, ?_, ?_⟩
    · show handleJsonModeStore false schemaMsg store ref = _
      rw [handleJsonModeStore_false_eq, hread]
      simp [jsonPlacement, hrole]
    · exact readList_writeList_self _ _ _ href
    · rw [readList_writeList_self _ _ _ href, hread]
      intro heq
      have := congrArg List.length heq
      simp at this

/-- C7 amended, witness: concrete run showing both halves. -/
theorem kwargs_messages_aliased_witness :
    (∀ mode, (mode = Mode.FUNCTIONS ∨ mode = Mode.TOOLS
        ∨ mode = Mode.MISTRAL_TOOLS) →
      handleMessagesStore mode "SCHEMA"
          [[{ role := Role.user, content := "hi" }]] 0
        = some ([[{ role := Role.user, content := "hi" }]], 0))
    ∧ ∃ st2, handleMessagesStore Mode.JSON "SCHEMA"
          [[{ role := Role.user, content := "hi" }]] 0
        = some (st2, 0)
        ∧ readList st2 0
            = jsonSystemMessage "SCHEMA" :: { role := Role.user, content := "hi" } :: []
        ∧ readList st2 0
            ≠ readList [[{ role := Role.user, content := "hi" }]] 0 := by
  exact kwargs_messages_aliased "SCHEMA"
    [[{ role := Role.user, content := "hi" }]] 0
    { role := Role.user, content := "hi" } [] rfl (by decide) (by decide)

/-- C6: for ANTHROPIC_TOOLS and ANTHROPIC_JSON, supplying both a top-level
`system` parameter and system-role messages raises a `ValueError` immediately
(and only then); with no top-level `system`, ANTHROPIC_TOOLS sets the
top-level system string to the blank-line-joined system-message contents and
removes the system messages from the list, and ANTHROPIC_JSON builds its
system string from the same blank-line-joined contents (followed by the
schema block, the whole passed through `textwrap.dedent`) and likewise leaves
no system-role message in the transformed list. -/
theorem anthropic_system_handling (p : Option String) (schemaText : String)
    (ms : List ChatMessage) :
    (anthropicRaised (handleAnthropicTools p ms) = true
      ↔ (p.isSome ∧ systemContents ms ≠ []))
    ∧ (anthropicRaised (handleAnthropicJson p schemaText ms) = true
      ↔ (p.isSome ∧ systemContents ms ≠ []))
    ∧ (p = none →
        handleAnthropicTools p ms
          = Except.ok
              { messages := ms.filter (fun mm => mm.role ≠ Role.system)
                systemText :=
                  some (String.intercalate "\n\n" (systemContents ms)) })
    ∧ (p = none →
        ∃ outMsgs, handleAnthropicJson p schemaText ms
          = Except.ok
              { messages := outMsgs
                systemText :=
                  some (dedent ("" ++ "\n\n"
                    ++ String.intercalate "\n\n" (systemContents ms)
                    ++ anthropicJsonBlock schemaText)) }
          ∧ ∀ mm ∈ outMsgs, mm.role ≠ Role.system) := by
  refine ⟨?_, ?_, ?_, ?_⟩
  · by_cases hcond : p.isSome ∧ systemContents ms ≠ [] <;>
      simp [handleAnthropicTools, anthropicRaised, hcond]
  · by_cases hcond : p.isSome ∧ systemContents ms ≠ [] <;>
      simp [handleAnthropicJson, anthropicRaised, hcond]
  · intro hp
    subst hp
    simp [handleAnthropicTools]
  · intro hp
    subst hp
    refine ⟨merge_consecutive_messages
        (ms.filter (fun mm => mm.role ≠ Role.system)), ?_, ?_⟩
    · simp [handleAnthropicJson]
    · refine merge_roles (fun ro => ro ≠ Role.system) _ ?_
      intro mm hmm
      have := (List.mem_filter.mp hmm).2
      simpa using this

/-- C6 witness: a conversation holding two system messages and a user message,
with no top-level `system` parameter. -/
theorem anthropic_system_handling_witness :
    handleAnthropicTools none
        [{ role := Role.system, content := "a" },
         { role := Role.user, content := "u" },
         { role := Role.system, content := "b" }]
      = Except.ok
          { messages := [{ role := Role.user, content := "u" }]
            systemText := some "a\n\nb" }
    ∧ ∃ outMsgs, handleAnthropicJson none "SCHEMA"
          [{ role := Role.system, content := "a" },
           { role := Role.user, content := "u" },
           { role := Role.system, content := "b" }]
        = Except.ok
            { messages := outMsgs
              systemText :=
                some (dedent ("" ++ "\n\n" ++ "a\n\nb"
                  ++ anthropicJsonBlock "SCHEMA")) }
        ∧ ∀ mm ∈ outMsgs, mm.role ≠ Role.system := by
  constructor
  · exact (anthropic_system_handling none "SCHEMA"
      [{ role := Role.system, content := "a" },
       { role := Role.user, content := "u" },
       { role := Role.system, content := "b" }]).2.2.1 rfl
  · exact (anthropic_system_handling none "SCHEMA"
      [{ role := Role.system, content := "a" },
       { role := Role.user, content := "u" },
       { role := Role.system, content := "b" }]).2.2.2 rfl

end Instructor
